import Mathlib

/-!
Verification development for the Gartner hype-cycle analyzer backend
(`backend/app/analyzers/hype_classifier.py`, `backend/app/analyzers/deepseek.py`,
`backend/app/collectors/*.py`, `backend/app/database.py`).

The Python code is shallowly embedded: dictionaries parsed from JSON become an
inductive `Json` value, Python strings become `List Char`, machine timestamps
become `Nat`, and each fallible operation returns `Except String`.  External
effects (HTTP calls to the collectors and to the DeepSeek API, the SQLite
connection) are modelled by passing the outcome of each external call as an
explicit argument, exactly at the points where the Python code awaits them.
-/

namespace HypeCycle

/-- A JSON value, as produced by Python's `json.loads`.  Numbers are modelled
as rationals (JSON numbers are decimal literals); objects keep their key order
as a list of pairs, with `objGet` implementing Python-dict lookup
(last duplicate key wins, as in `json.loads`). -/
inductive Json where
  | null : Json
  | bool (b : Bool) : Json
  | num (q : ℚ) : Json
  | str (s : String) : Json
  | arr (xs : List Json) : Json
  | obj (fields : List (String × Json)) : Json

/-- Python dict lookup `d.get(key)` for an object's field list: the value of
the last binding of `key` (later duplicate keys overwrite earlier ones when
`json.loads` builds the dict), or `none` when the key is absent. -/
def objGet (fields : List (String × Json)) (key : String) : Option Json :=
  fields.foldl (fun acc p => if p.1 = key then some p.2 else acc) none

/-- Python truthiness of a JSON-decoded value (`if social_data`, `if raw_data`
and the `json.dumps(x) if x else None` guards): `None`, `False`, `0`, `""`,
`[]` and `{\x7b\x7d}` are falsy, everything else truthy. -/
def jsonTruthy : Json → Bool
  | Json.null => false
  | Json.bool b => b
  | Json.num q => q ≠ 0
  | Json.str s => s ≠ ""
  | Json.arr xs => !xs.isEmpty
  | Json.obj fields => !fields.isEmpty

/-! ### Python string primitives

`DeepSeekAnalyzer._call_deepseek` manipulates the raw model text with
`str.strip`, `str.startswith`, `str.split` and slicing.  Those are modelled
over `List Char` (a Python `str` is a sequence of characters). -/

/-- The characters removed by Python's `str.strip()` with no argument
(ASCII whitespace; the unicode space classes do not occur in this code base). -/
def isPySpace (c : Char) : Bool :=
  c = ' ' || c = '\t' || c = '\n' || c = '\r' || c = Char.ofNat 11 || c = Char.ofNat 12

/-- Python `s.strip()`: drop leading and trailing whitespace. -/
def pyStrip (s : List Char) : List Char :=
  ((s.dropWhile isPySpace).reverse.dropWhile isPySpace).reverse

/-- The backtick character (written via its code point to keep it out of the
source text proper). -/
def btick : Char := Char.ofNat 96

/-- The three-backtick markdown fence delimiter. -/
def fenceDelim : List Char := [btick, btick, btick]

/-- Python `content.split("\x60\x60\x60")`: split on each non-overlapping
occurrence of three backticks, scanning left to right. -/
def splitTicks : List Char → List (List Char)
  | [] => [[]]
  | [c] => [[c]]
  | [c1, c2] => [[c1, c2]]
  | c1 :: c2 :: c3 :: rest =>
    if c1 = btick ∧ c2 = btick ∧ c3 = btick then
      [] :: splitTicks rest
    else
      match splitTicks (c2 :: c3 :: rest) with
      | [] => [[c1]]
      | h :: t => (c1 :: h) :: t

/-- The markdown-fence stripping performed by `DeepSeekAnalyzer._call_deepseek`
(deepseek.py lines 413-419, "pattern from FinanceCollector"): trim the content;
if it starts with a three-backtick fence, keep only the first fenced segment
(`content.split("...")[1]` — everything after the closing fence, such as
trailing prose, falls into later segments and is discarded; the index-1 access
cannot fail because a string starting with the delimiter splits into at least
two segments), drop a leading `json` language tag (`content[4:]`), and trim
again. -/
def stripMarkdownFence (content : List Char) : List Char :=
  let content := pyStrip content
  let content :=
    if fenceDelim.isPrefixOf content then
      let c := (splitTicks content).getD 1 []
      if ("json".toList).isPrefixOf c then c.drop 4 else c
    else content
  pyStrip content

/-! ### DeepSeek response validation (`deepseek.py` lines 421-438) -/

/-- `DeepSeekAnalyzer.VALID_PHASES` (deepseek.py lines 17-23). -/
def VALID_PHASES : List String :=
  ["innovation_trigger", "peak", "trough", "slope", "plateau"]

/-- The `required_fields` list of `_call_deepseek` (deepseek.py line 425). -/
def requiredFields : List String := ["phase", "confidence", "reasoning"]

/-- The validation block of `_call_deepseek` (deepseek.py lines 424-438),
applied to the value returned by `json.loads`:
* a non-dict value fails (in Python the field-membership test or the
  subscripting raises before any value could be returned);
* `required_fields` must all be dict keys;
* `parsed["phase"]` must be a member of `VALID_PHASES` (a non-string value is
  simply not a member of that list of strings and fails the same check);
* `parsed["confidence"]` must satisfy `isinstance(confidence, (int, float))`
  and `0 <= confidence <= 1` — note Python's `bool` is a subclass of `int`
  with `True == 1` and `False == 0`, so a JSON boolean passes both tests;
* on success the parsed object itself is returned, never a default. -/
def validateDeepseekResponse (parsed : Json) : Except String Json :=
  match parsed with
  | Json.obj fields =>
    if !(requiredFields.all (fun f => (objGet fields f).isSome)) then
      Except.error "DeepSeek response missing required fields"
    else if !(match objGet fields "phase" with
              | some (Json.str p) => VALID_PHASES.contains p
              | _ => false) then
      Except.error "Invalid phase"
    else if !(match objGet fields "confidence" with
              | some (Json.num q) => decide (0 ≤ q) && decide (q ≤ 1)
              | some (Json.bool _) => true
              | _ => false) then
      Except.error "Confidence must be float between 0-1"
    else
      Except.ok parsed
  | _ => Except.error "DeepSeek response is not a JSON object"

/-- The response-handling tail of `_call_deepseek` (deepseek.py lines 410-438):
strip an optional markdown fence from the completion text, parse the result as
JSON, and validate.  `loads` stands for Python's `json.loads`, which is
external library code: it is passed as a parameter, returning `Except.error`
exactly when the Python call would raise `json.JSONDecodeError`. -/
def callDeepseekContent (loads : List Char → Except String Json)
    (content : List Char) : Except String Json :=
  match loads (stripMarkdownFence content) with
  | Except.error e => Except.error e
  | Except.ok parsed => validateDeepseekResponse parsed

/-- Spec-side characterization of a valid LLM classification response,
written from the spec's words ("a JSON object containing `phase`,
`confidence`, and `reasoning`, with `phase` one of the five enum values and
`confidence` in [0,1]") for comparison with the source-translated
`validateDeepseekResponse`.  A JSON boolean confidence is included because
Python's `bool` is an `int` with `True == 1`, `False == 0`, both inside
`[0,1]`. -/
def specValidResponse : Json → Bool
  | Json.obj fields =>
    (requiredFields.all (fun f => (objGet fields f).isSome))
    && (match objGet fields "phase" with
        | some (Json.str p) => VALID_PHASES.contains p
        | _ => false)
    && (match objGet fields "confidence" with
        | some (Json.num q) => decide (0 ≤ q) && decide (q ≤ 1)
        | some (Json.bool _) => true
        | _ => false)
  | _ => false

/-! ### Orchestrator data model (`hype_classifier.py`)

Collector results are a keyword-ordered association list over the five fixed
source names (the Python `collector_results` dict built in `_run_collectors`).
A value of `none` is Python `None` (source failed); `some d` is the
collector's data dict. -/

/-- The five sources, in the order `_run_collectors` instantiates them
(hype_classifier.py lines 203-209). -/
def sources : List String := ["social", "papers", "patents", "news", "finance"]

/-- The four sources re-run by `_expand_query_and_rerun`
(hype_classifier.py lines 310-315); finance is deliberately skipped. -/
def rerunSources : List String := ["social", "papers", "patents", "news"]

/-- `HypeCycleClassifier.MINIMUM_SOURCES_REQUIRED` (hype_classifier.py line 33). -/
def MINIMUM_SOURCES_REQUIRED : Nat := 3

/-- The shared error text of the batch timeout,
`f"Timeout after \x7bself.COLLECTOR_TIMEOUT_SECONDS\x7ds"` with
`COLLECTOR_TIMEOUT_SECONDS = 120.0` (hype_classifier.py lines 34, 222). -/
def timeoutMsg : String := "Timeout after 120.0s"

/-- `collector_results.get(source)`: dict lookup returning `None` both for an
absent key and for a stored `None`. -/
def lookupSource (results : List (String × Option Json)) (s : String) : Option Json :=
  match results.lookup s with
  | some v => v
  | none => none

/-- Python dict assignment `collector_results[source] = result` for the fixed
source keys (every key written is already present). -/
def setSource (results : List (String × Option Json)) (s : String) (v : Json) :
    List (String × Option Json) :=
  results.map (fun p => if p.1 = s then (p.1, some v) else p)

/-- `len([r for r in collector_results.values() if r is not None])` /
`sum(1 for r in collector_results.values() if r is not None)`. -/
def countSuccess (results : List (String × Option Json)) : Nat :=
  (results.filter (fun p => p.2.isSome)).length

/-- The result of `DeepSeekAnalyzer.analyze` (deepseek.py lines 49-101): a dict
with `phase`, `confidence`, `reasoning`, `per_source_analyses`, and an `errors`
key that is present only when some per-source call failed (`if errors:` at
deepseek.py line 97).  `errors = none` models the key being absent. -/
structure Analysis where
  phase : String
  confidence : ℚ
  reasoning : String
  perSourceAnalyses : List (String × Json) := []
  errors : Option (List String) := none

/-- The response dict built by `HypeCycleClassifier._assemble_response`
(hype_classifier.py lines 465-488).  Timestamps are `Nat` (the ISO strings of
the code compare chronologically for a fixed clock). -/
structure Response where
  keyword : String
  phase : String
  confidence : ℚ
  reasoning : String
  timestamp : Nat
  cacheHit : Bool
  expiresAt : Nat
  perSourceAnalyses : List (String × Json)
  collectorData : List (String × Option Json)
  collectorsSucceeded : Nat
  partialData : Bool
  errors : List String
  queryExpansionApplied : Bool
  expandedTerms : List String

/-- `HypeCycleClassifier._assemble_response` (hype_classifier.py lines
427-490): count the non-null collector entries, concatenate the collector
errors with the analysis errors (when the `errors` key exists), and build the
response; `partial_data` is `collectors_succeeded < 5` and `expanded_terms`
collapses `None` and `[]` to `[]`. -/
def assembleResponse (keyword : String) (analysis : Analysis)
    (collectorResults : List (String × Option Json)) (collectorErrors : List String)
    (cacheHit : Bool) (createdAt expiresAt : Nat)
    (queryExpansionApplied : Bool) (expandedTerms : Option (List String)) : Response :=
  let collectorsSucceeded := countSuccess collectorResults
  let allErrors := collectorErrors ++ (analysis.errors.getD [])
  { keyword := keyword
    phase := analysis.phase
    confidence := analysis.confidence
    reasoning := analysis.reasoning
    timestamp := createdAt
    cacheHit := cacheHit
    expiresAt := expiresAt
    perSourceAnalyses := analysis.perSourceAnalyses
    collectorData := collectorResults
    collectorsSucceeded := collectorsSucceeded
    partialData := decide (collectorsSucceeded < 5)
    errors := allErrors
    queryExpansionApplied := queryExpansionApplied
    expandedTerms := (expandedTerms.getD []) }

/-! ### Collection orchestrator (`_run_collectors`, hype_classifier.py 192-238) -/

/-- The aggregation loop of `_run_collectors` (lines 224-236): each
exception-as-value becomes a `None` result plus a
`"\x7bsource\x7d collector failed: \x7bmessage\x7d"` error string; each
success is stored as-is. -/
def processCollectorResults (pairs : List (String × Except String Json)) :
    List (String × Option Json) × List String :=
  pairs.foldl
    (fun acc p =>
      match p.2 with
      | Except.error msg =>
        (acc.1 ++ [(p.1, none)], acc.2 ++ [p.1 ++ " collector failed: " ++ msg])
      | Except.ok v => (acc.1 ++ [(p.1, some v)], acc.2))
    ([], [])

/-- `HypeCycleClassifier._run_collectors` (lines 192-238).  `outcomes` are the
settled outcomes of the five concurrently gathered `collect` calls (exceptions
as `Except.error`, per `return_exceptions=True`); `timedOut` says whether the
`asyncio.wait_for` deadline fired, in which case the gathered outcomes are
discarded wholesale and replaced by five copies of one shared timeout
exception (line 222) before aggregation. -/
def run_collectors (outcomes : List (Except String Json)) (timedOut : Bool) :
    List (String × Option Json) × List String :=
  let results :=
    if timedOut then List.replicate sources.length (Except.error timeoutMsg)
    else outcomes
  processCollectorResults (sources.zip results)

/-! ### Niche detection (`_detect_niche`, hype_classifier.py 240-270) -/

/-- `social_data.get(key, 0)` restricted to the numeric fields the niche check
reads (the collectors populate them with numbers; a JSON boolean is an `int`
in Python). -/
def jsonGetNumD (j : Json) (key : String) (d : ℚ) : ℚ :=
  match j with
  | Json.obj fields =>
    match objGet fields key with
    | some (Json.num q) => q
    | some (Json.bool b) => if b then 1 else 0
    | _ => d
  | _ => d

/-- `HypeCycleClassifier._detect_niche` (lines 240-270): niche iff the social
data is present and truthy and `mentions_30d < 50 or mentions_total < 100`;
with no (or falsy) social data, `False`. -/
def detect_niche (results : List (String × Option Json)) : Bool :=
  match lookupSource results "social" with
  | none => false
  | some socialData =>
    if !(jsonTruthy socialData) then false
    else
      let m30 := jsonGetNumD socialData "mentions_30d" 0
      let mtot := jsonGetNumD socialData "mentions_total" 0
      decide (m30 < 50) || decide (mtot < 100)

/-! ### Query expansion (`_expand_query_and_rerun`, hype_classifier.py 272-353)

The re-run step builds `collector.collect(keyword, expanded_terms=...)` calls
for the four non-finance collectors (lines 318-321); the settled outcomes of
that gather are abstracted as the `rerunOutcomes` parameter.  (Note that
`SocialCollector.collect` does not declare the `expanded_terms` parameter —
see the C8 analysis below — so in production the call construction itself
raises; the model below covers the behaviour of the aggregation loop the
source specifies for the gathered outcomes.) -/

/-- The error appended on a re-run batch timeout (line 330). -/
def expansionTimeoutMsg : String := "Query expansion: Timeout after 120.0s"

/-- The update loop of `_expand_query_and_rerun` (lines 334-344): a failed
re-run keeps the original entry and appends
`"Query expansion: \x7bsource\x7d collector failed: \x7bmessage\x7d"`; a
successful re-run overwrites the entry. -/
def updateRerunResults (start : List (String × Option Json) × List String)
    (rerunPairs : List (String × Except String Json)) :
    List (String × Option Json) × List String :=
  rerunPairs.foldl
    (fun acc p =>
      match p.2 with
      | Except.error msg =>
        (acc.1, acc.2 ++ ["Query expansion: " ++ p.1 ++ " collector failed: " ++ msg])
      | Except.ok v => (setSource acc.1 p.1 v, acc.2))
    start

/-- `HypeCycleClassifier._expand_query_and_rerun` (lines 272-353).
`termGen` is the outcome of `analyzer.generate_expanded_terms(keyword)`: on
failure the original results are returned with a
`"Query expansion failed: \x7bmessage\x7d"` error appended and an empty term
list (lines 302-307).  On success the four re-run outcomes are aggregated by
`updateRerunResults`, unless the re-run batch timed out, in which case the
original results are returned with a timeout error appended and the terms
(lines 328-332). -/
def expand_query_and_rerun (results : List (String × Option Json))
    (errors : List String) (termGen : Except String (List String))
    (rerunOutcomes : List (Except String Json)) (rerunTimedOut : Bool) :
    List (String × Option Json) × List String × List String :=
  match termGen with
  | Except.error msg =>
    (results, errors ++ ["Query expansion failed: " ++ msg], [])
  | Except.ok expandedTerms =>
    if rerunTimedOut then
      (results, errors ++ [expansionTimeoutMsg], expandedTerms)
    else
      let updated := updateRerunResults (results, errors) (rerunSources.zip rerunOutcomes)
      (updated.1, updated.2, expandedTerms)

/-! ### Persistence and cache (`_persist_result` / `_check_cache`,
hype_classifier.py 115-190 and 355-425; schema from database.py) -/

/-- One row of the `analyses` table (database.py lines 17-47): the schema has
no column for the request's error list.  Each `*Data` column stores
`json.dumps(x)` of the corresponding value, or SQL NULL when the value was
falsy; serialization round-trips (`json.loads ∘ json.dumps` is the identity on
JSON-decoded values), so the columns are modelled with the decoded values. -/
structure Row where
  keyword : String
  phase : String
  confidence : ℚ
  reasoning : String
  socialData : Option Json
  papersData : Option Json
  patentsData : Option Json
  newsData : Option Json
  financeData : Option Json
  perSourceAnalysesData : Option (List (String × Json))
  queryExpansionApplied : Bool
  expandedTermsData : Option (List String)
  createdAt : Nat
  expiresAt : Nat

/-- The `json.dumps(collector_results.get(s)) if collector_results.get(s) else
None` serialization guard of `_persist_result` (lines 381-385): `None` and
falsy data (an empty dict) store NULL. -/
def serializeData (v : Option Json) : Option Json :=
  match v with
  | some d => if jsonTruthy d then some d else none
  | none => none

/-- `HypeCycleClassifier._persist_result` (lines 355-425): compute
`created_at = now` and `expires_at = now + ttl`, serialize the per-source
data, the per-source analyses (`if analysis.get("per_source_analyses")`) and
the expanded terms (`if expanded_terms`, where both `None` and `[]` are
falsy), insert one row, and return the timestamps. -/
def persist_result (keyword : String) (analysis : Analysis)
    (collectorResults : List (String × Option Json)) (db : List Row)
    (now ttl : Nat) (queryExpansionApplied : Bool) (expandedTerms : List String) :
    List Row × Nat × Nat :=
  let createdAt := now
  let expiresAt := now + ttl
  let row : Row :=
    { keyword := keyword
      phase := analysis.phase
      confidence := analysis.confidence
      reasoning := analysis.reasoning
      socialData := serializeData (lookupSource collectorResults "social")
      papersData := serializeData (lookupSource collectorResults "papers")
      patentsData := serializeData (lookupSource collectorResults "patents")
      newsData := serializeData (lookupSource collectorResults "news")
      financeData := serializeData (lookupSource collectorResults "finance")
      perSourceAnalysesData :=
        if analysis.perSourceAnalyses.isEmpty then none else some analysis.perSourceAnalyses
      queryExpansionApplied := queryExpansionApplied
      expandedTermsData := if expandedTerms.isEmpty then none else some expandedTerms
      createdAt := createdAt
      expiresAt := expiresAt }
  (db ++ [row], createdAt, expiresAt)

/-- The `SELECT ... WHERE keyword = ? AND expires_at > ? ORDER BY created_at
DESC LIMIT 1` lookup of `_check_cache` (lines 126-131): among the rows for the
keyword that have not expired, the one with the greatest `created_at`. -/
def lookupRow (keyword : String) (now : Nat) (db : List Row) : Option Row :=
  (db.filter (fun r => r.keyword = keyword && now < r.expiresAt)).foldl
    (fun acc r =>
      match acc with
      | none => some r
      | some b => if b.createdAt < r.createdAt then some r else some b)
    none

/-- The cached-response assembly of `_check_cache` (lines 144-185): rebuild
the five collector entries from the row's data columns, default the
per-source analyses, the expansion flag and the expanded terms from their
columns, and assemble with an empty collector-error list, `cache_hit=True`
and the row's timestamps. -/
def cachedResponseOfRow (keyword : String) (row : Row) : Response :=
  assembleResponse keyword
    { phase := row.phase
      confidence := row.confidence
      reasoning := row.reasoning
      perSourceAnalyses := row.perSourceAnalysesData.getD []
      errors := none }
    [("social", row.socialData), ("papers", row.papersData),
     ("patents", row.patentsData), ("news", row.newsData),
     ("finance", row.financeData)]
    [] true row.createdAt row.expiresAt
    row.queryExpansionApplied (some (row.expandedTermsData.getD []))

/-- `HypeCycleClassifier._check_cache` (lines 115-190).  In production the row
object is an `aiosqlite.Row` (= `sqlite3.Row`, set in database.py line 9),
which has **no** `.get` method: the call
`row.get("query_expansion_applied", 0)` at line 161 raises `AttributeError`,
which the inner `except (json.JSONDecodeError, KeyError)` does not catch, so
it falls to the outer `except Exception` (line 186) and the function returns
`None` — every found row becomes a cache miss.  The unit tests instead feed
dict-like mock rows, for which the assembly completes.  `rowGetWorks` selects
between the two row behaviours (`false` = production `sqlite3.Row`). -/
def check_cache (keyword : String) (now : Nat) (db : List Row)
    (rowGetWorks : Bool) : Option Response :=
  match lookupRow keyword now db with
  | none => none
  | some row =>
    if rowGetWorks then some (cachedResponseOfRow keyword row) else none

/-! ### Top-level `classify` (hype_classifier.py 40-113) -/

/-- The external outcomes one `classify(keyword, db)` call can observe, each
passed at the point where the Python code awaits it. -/
structure ClassifyEnv where
  /-- The rows of the `analyses` table. -/
  db : List Row
  /-- The clock value used for the cache lookup. -/
  now : Nat
  /-- `cache_ttl_hours` from settings. -/
  ttl : Nat
  /-- Whether the fetched row supports `.get` (see `check_cache`). -/
  rowGetWorks : Bool
  /-- Settled outcomes of the initial five-collector gather. -/
  initialOutcomes : List (Except String Json)
  /-- Whether the initial gather hit the 120 s batch deadline. -/
  initialTimedOut : Bool
  /-- Outcome of `generate_expanded_terms(keyword)`. -/
  termGen : Except String (List String)
  /-- Settled outcomes of the four-collector re-run gather. -/
  rerunOutcomes : List (Except String Json)
  /-- Whether the re-run gather hit the batch deadline. -/
  rerunTimedOut : Bool
  /-- Outcome of `DeepSeekAnalyzer.analyze(keyword, collector_results)`. -/
  analyzeResult : Except String Analysis

/-- The collection phase of `classify` (line 60). -/
def collectPhase (env : ClassifyEnv) : List (String × Option Json) × List String :=
  run_collectors env.initialOutcomes env.initialTimedOut

/-- Lines 63-81 of `classify`: run the collectors, and when `_detect_niche`
holds, apply query expansion; the result is the post-expansion
`(collector_results, collector_errors, expanded_terms)` triple. -/
def expansionPhase (env : ClassifyEnv) :
    List (String × Option Json) × List String × List String :=
  let c := collectPhase env
  if detect_niche c.1 then
    expand_query_and_rerun c.1 c.2 env.termGen env.rerunOutcomes env.rerunTimedOut
  else
    (c.1, c.2, [])

/-- `f"Insufficient data: only \x7bn\x7d/5 collectors succeeded. Minimum 3
required. Errors: \x7berrors\x7d"` (lines 85-89); the error list is rendered
the way Python's `str` renders a list of strings. -/
def insufficientDataMsg (n : Nat) (errors : List String) : String :=
  "Insufficient data: only " ++ toString n ++
  "/5 collectors succeeded. Minimum 3 required. Errors: [" ++
  String.intercalate ", " (errors.map (fun s => "\x27" ++ s ++ "\x27")) ++ "]"

/-- `HypeCycleClassifier.classify` (lines 40-113).  The second component
records whether `DeepSeekAnalyzer.analyze` was invoked (line 93).  Cache hit →
the cached response; below the 3-source quorum (checked after the optional
expansion, line 84) → the insufficient-data exception without ever reaching
the analyzer; otherwise the analyzer's outcome is either propagated (failure)
or persisted and assembled (lines 96-113).  `query_expansion_applied` is set
only when the keyword was niche and the expansion produced terms (lines
70-81). -/
def classify (keyword : String) (env : ClassifyEnv) : Except String Response × Bool :=
  match check_cache keyword env.now env.db env.rowGetWorks with
  | some cached => (Except.ok cached, false)
  | none =>
    let eo := expansionPhase env
    if countSuccess eo.1 < MINIMUM_SOURCES_REQUIRED then
      (Except.error (insufficientDataMsg (countSuccess eo.1) eo.2.1), false)
    else
      match env.analyzeResult with
      | Except.error e => (Except.error e, true)
      | Except.ok analysis =>
        let applied := detect_niche (collectPhase env).1 && !(eo.2.2.isEmpty)
        let per := persist_result keyword analysis eo.1 env.db env.now env.ttl
          applied eo.2.2
        (Except.ok (assembleResponse keyword analysis eo.1 eo.2.1 false
          per.2.1 per.2.2 applied (some eo.2.2)), true)

/-! ### Term expansion (`generate_expanded_terms`) and collector signatures -/

/-- Modelled from the spec: `DeepSeekAnalyzer.generate_expanded_terms` is
called at hype_classifier.py line 300 and exercised by
tests/test_query_expansion.py, but its definition is missing from the
repository's source files (deepseek.py defines no such method).  Per the
spec's §4.4(c): the denylist of overly generic words ("technology", "system",
"innovation"). -/
def GENERIC_TERM_DENYLIST : List String := ["technology", "system", "innovation"]

/-- Python `str.lower()` (the terms here are ASCII). -/
def pyLower (s : String) : String := String.mk (s.toList.map Char.toLower)

/-- Modelled from the spec: `DeepSeekAnalyzer.generate_expanded_terms`, whose
definition is missing from the repository's source files (only its caller at
hype_classifier.py line 300 and tests/test_query_expansion.py exist).
Per the spec's §4.4(c): one model call obtains raw related search terms
(`rawTerms`, the parsed model output); the post-filter rejects terms on the
generic-word denylist and the original keyword itself, case-insensitively;
fewer than 3 surviving terms is an error (the tests expect the message
`"Only \x7bn\x7d valid terms"`); the operation returns 3-5 terms. -/
def validTerms (keyword : String) (rawTerms : List String) : List String :=
  rawTerms.filter (fun t =>
    !(GENERIC_TERM_DENYLIST.contains (pyLower t)) && pyLower t ≠ pyLower keyword)

/-- Modelled from the spec: the decision of `generate_expanded_terms` after
the post-filter (see `validTerms`): fewer than 3 surviving terms fail with the
`"Only \x7bn\x7d valid terms"` error; otherwise at most 5 terms are
returned. -/
def generate_expanded_terms (keyword : String) (rawTerms : List String) :
    Except String (List String) :=
  let valid := validTerms keyword rawTerms
  if valid.length < 3 then
    Except.error ("Only " ++ toString valid.length ++ " valid terms after filtering")
  else
    Except.ok (valid.take 5)

/-- Which collectors' `collect` methods declare the optional `expanded_terms`
parameter, read off the `def collect` lines of the source:
* social.py line 19: `collect(self, keyword: str)` — **not** declared;
* papers.py line 19, patents.py line 22, news.py line 18:
  `collect(self, keyword: str, expanded_terms: Optional[List[str]] = None)`;
* finance.py line 33: `collect(self, keyword: str)` — not declared (finance
  is not re-run).
A Python call `collect(keyword, expanded_terms=...)` against a method that
does not declare the parameter raises `TypeError` at call time. -/
def collectAcceptsExpandedTerms (source : String) : Bool :=
  source = "papers" || source = "patents" || source = "news"

/-! ### Concrete inputs used by witnesses and counterexamples -/

/-- A collector-results dict over the five fixed sources, in the order
`_run_collectors` builds it. -/
def mkResults (oS oP oPa oN oF : Option Json) : List (String × Option Json) :=
  [("social", oS), ("papers", oP), ("patents", oPa), ("news", oN), ("finance", oF)]

/-- The per-source effect of the expansion update loop, as the spec states it:
a successful re-run overwrites, a failed one leaves the original value. -/
def rerunUpd (orig : Option Json) (outcome : Except String Json) : Option Json :=
  match outcome with
  | Except.ok v => some v
  | Except.error _ => orig

/-- The error strings the expansion update loop appends, in order: one per
failed re-run source. -/
def rerunErrs (outcomes : List (String × Except String Json)) : List String :=
  outcomes.filterMap (fun p =>
    match p.2 with
    | Except.error m =>
      some ("Query expansion: " ++ p.1 ++ " collector failed: " ++ m)
    | Except.ok _ => none)

/-- §8's fenced-response example: the bare JSON wrapped in a `json`-tagged
markdown fence with trailing prose after the closing fence. -/
def fencedExample : String :=
  "```json\n\x7b\"phase\": \"peak\", \"confidence\": 0.75, \"reasoning\": \"x\"\x7d\n```\nLet me know if you need more detail."

/-- §8's bare-JSON response example. -/
def bareExample : String :=
  "\x7b\"phase\": \"peak\", \"confidence\": 0.75, \"reasoning\": \"x\"\x7d"

/-- Social-collector data of a well-discussed technology (not niche). -/
def socialBusy : Json :=
  Json.obj [("mentions_30d", Json.num 200), ("mentions_total", Json.num 500)]

/-- A papers-collector result. -/
def papersOk : Json := Json.obj [("publications_2y", Json.num 30)]

/-- A patents-collector result. -/
def patentsOk : Json := Json.obj [("patents_2y", Json.num 15)]

/-- A fresh-run environment: empty cache, three of five collectors succeed,
analysis succeeds. -/
def envFresh : ClassifyEnv :=
  { db := []
    now := 7
    ttl := 24
    rowGetWorks := false
    initialOutcomes :=
      [Except.ok socialBusy, Except.ok papersOk, Except.ok patentsOk,
       Except.error "news down", Except.error "finance down"]
    initialTimedOut := false
    termGen := Except.error "unused"
    rerunOutcomes := []
    rerunTimedOut := false
    analyzeResult := Except.ok
      { phase := "peak"
        confidence := 0.85
        reasoning := "strong growth"
        perSourceAnalyses := [("social", Json.str "peak")]
        errors := none } }

/-- The response `classify` assembles in `envFresh`. -/
def respFresh : Response :=
  { keyword := "quantum computing"
    phase := "peak"
    confidence := 0.85
    reasoning := "strong growth"
    timestamp := 7
    cacheHit := false
    expiresAt := 31
    perSourceAnalyses := [("social", Json.str "peak")]
    collectorData := mkResults (some socialBusy) (some papersOk) (some patentsOk) none none
    collectorsSucceeded := 3
    partialData := true
    errors := ["news collector failed: news down",
               "finance collector failed: finance down"]
    queryExpansionApplied := false
    expandedTerms := [] }

/-- A persisted cache row for the cache-hit scenario. -/
def rowCached : Row :=
  { keyword := "blockchain"
    phase := "trough"
    confidence := 0.6
    reasoning := "cooling"
    socialData := some socialBusy
    papersData := none
    patentsData := none
    newsData := none
    financeData := none
    perSourceAnalysesData := none
    queryExpansionApplied := false
    expandedTermsData := none
    createdAt := 3
    expiresAt := 50 }

/-- A cache-hit environment: `rowCached` present and unexpired, with
dict-like rows (`rowGetWorks := true`, as in the unit tests). -/
def envCacheHit : ClassifyEnv :=
  { db := [rowCached]
    now := 10
    ttl := 24
    rowGetWorks := true
    initialOutcomes := []
    initialTimedOut := false
    termGen := Except.error "unused"
    rerunOutcomes := []
    rerunTimedOut := false
    analyzeResult := Except.error "unused" }

/-- The cached response `classify` returns in `envCacheHit`. -/
def respCached : Response :=
  { keyword := "blockchain"
    phase := "trough"
    confidence := 0.6
    reasoning := "cooling"
    timestamp := 3
    cacheHit := true
    expiresAt := 50
    perSourceAnalyses := []
    collectorData := mkResults (some socialBusy) none none none none
    collectorsSucceeded := 1
    partialData := true
    errors := []
    queryExpansionApplied := false
    expandedTerms := [] }

/-- The analysis persisted in the C9 round-trip scenario. -/
def analysisPersisted : Analysis :=
  { phase := "peak"
    confidence := 0.82
    reasoning := "cached analysis"
    perSourceAnalyses := [("social", Json.str "peak")]
    errors := none }

/-- The collector results persisted in the C9 round-trip scenario. -/
def resultsPersisted : List (String × Option Json) :=
  mkResults (some socialBusy) (some papersOk) (some patentsOk) none none

/-- The database after persisting `analysisPersisted` at time 5 with a 24-hour
TTL (so `expires_at = 29`). -/
def dbAfterPersist : List Row :=
  (persist_result "quantum computing" analysisPersisted resultsPersisted []
    5 24 false []).1

/-! ## Theorems -/

lemma validateDeepseekResponse_ok_iff (p j : Json) :
    validateDeepseekResponse p = Except.ok j ↔ p = j ∧ specValidResponse p = true := by
  cases p with
  | obj fields =>
      simp only [validateDeepseekResponse, specValidResponse]
      split_ifs with h1 h2 h3 <;>
        simp_all [Option.isSome_iff_ne_none]
  | null => simp [validateDeepseekResponse, specValidResponse]
  | bool b => simp [validateDeepseekResponse, specValidResponse]
  | num q => simp [validateDeepseekResponse, specValidResponse]
  | str s => simp [validateDeepseekResponse, specValidResponse]
  | arr xs => simp [validateDeepseekResponse, specValidResponse]

/-- C2: `_call_deepseek`'s response handling returns `Except.ok j` exactly
when the fence-stripped content parses (via `json.loads`, the `loads`
parameter) to a JSON object `j` containing `phase`, `confidence` and
`reasoning` with `phase` in the five-value enum and `confidence` in `[0,1]`
(`specValidResponse`), and then `j` is the parsed object itself; every other
case — parse failure, missing field, bad phase, out-of-range confidence — is
an `Except.error`, never a defaulted value.  The trailing conjuncts check the
fence handling on §8's concrete example: a `json`-tagged fence with trailing
prose strips to exactly the bare JSON text, so it parses to the same object
as the bare case. -/
theorem call_deepseek_response_contract :
    (∀ (loads : List Char → Except String Json) (content : List Char) (j : Json),
        callDeepseekContent loads content = Except.ok j ↔
          loads (stripMarkdownFence content) = Except.ok j ∧
            specValidResponse j = true) ∧
    stripMarkdownFence fencedExample.toList = bareExample.toList ∧
    stripMarkdownFence bareExample.toList = bareExample.toList := by
  refine ⟨?_, by decide, by decide⟩
  intro loads content j
  unfold callDeepseekContent
  cases h : loads (stripMarkdownFence content) with
  | error e => simp
  | ok parsed =>
    rw [validateDeepseekResponse_ok_iff]
    constructor
    · rintro ⟨rfl, hv⟩
      exact ⟨rfl, hv⟩
    · rintro ⟨hj, hv⟩
      cases hj
      exact ⟨rfl, hv⟩

/-- C5: when the 120 s batch deadline of `_run_collectors` fires, the gathered
per-source outcomes — including any that finished successfully before the
deadline — are discarded wholesale: every one of the five sources is marked
failed (`None`), and each source's appended error embeds one single shared
timeout string (`timeoutMsg`), carrying no per-source information about the
timeout. -/
theorem batch_timeout_all_sources_failed (outcomes : List (Except String Json)) :
    run_collectors outcomes true =
      (sources.map (fun s => (s, (none : Option Json))),
       sources.map (fun s => s ++ " collector failed: " ++ timeoutMsg)) := rfl

/-- C6 counterexample: the claim says a failed term-generation call returns
the original error list unchanged; starting from the empty error list, the
returned error list is not empty (a `"Query expansion failed: ..."` entry was
appended). -/
theorem expansion_termgen_failure_counterexample :
    (expand_query_and_rerun (mkResults none none none none none) []
        (Except.error "boom") [] false).2.1 ≠ [] := by decide

/-- C6 amended: when the term-generation call fails, `_expand_query_and_rerun`
returns the original collector results unchanged and an empty expanded-terms
list, and appends exactly one `"Query expansion failed: \x7bmessage\x7d"`
entry to the error list; the failure is swallowed, never escalated (the
function returns normally). -/
theorem expansion_termgen_failure_nondestructive
    (results : List (String × Option Json)) (errors : List String) (msg : String)
    (rerunOutcomes : List (Except String Json)) (rerunTimedOut : Bool) :
    expand_query_and_rerun results errors (Except.error msg) rerunOutcomes
        rerunTimedOut =
      (results, errors ++ ["Query expansion failed: " ++ msg], []) := rfl

/-- C7: the expansion update loop, for each of the four re-run sources in
order (social, papers, patents, news): a successful re-run overwrites that
source's entry with the new result; a failed re-run leaves the entry exactly
as it was (`None` stays `None`, a prior success is not erased) and appends a
`"Query expansion: \x7bsource\x7d collector failed: ..."` error; finance is
never touched. -/
theorem expansion_overwrite_rule (oS oP oPa oN oF : Option Json)
    (errors : List String) (terms : List String)
    (r1 r2 r3 r4 : Except String Json) :
    expand_query_and_rerun (mkResults oS oP oPa oN oF) errors
        (Except.ok terms) [r1, r2, r3, r4] false =
      (mkResults (rerunUpd oS r1) (rerunUpd oP r2) (rerunUpd oPa r3)
          (rerunUpd oN r4) oF,
       errors ++ rerunErrs
          [("social", r1), ("papers", r2), ("patents", r3), ("news", r4)],
       terms) := by
  cases r1 <;> cases r2 <;> cases r3 <;> cases r4 <;>
    simp [expand_query_and_rerun, updateRerunResults, setSource, mkResults,
      rerunUpd, rerunErrs, rerunSources]

/-- C8: the orchestrator's expansion re-run calls
`collect(keyword, expanded_terms=...)` on all four of social, papers, patents
and news (hype_classifier.py lines 318-321), but `SocialCollector.collect`
(social.py line 19) does not declare the `expanded_terms` parameter, so the
call raises `TypeError` — the claim that every re-run collector accepts the
optional term list fails on the social collector. -/
theorem social_collect_lacks_expanded_terms :
    "social" ∈ rerunSources ∧
    collectAcceptsExpandedTerms "social" = false ∧
    rerunSources.all collectAcceptsExpandedTerms = false := by
  refine ⟨by decide, rfl, rfl⟩

/-- C4: the term-expansion post-filter (modelled from the spec, the method
being absent from the sources): every successfully returned term list has
between 3 and 5 entries, none of which is a denylisted generic word or the
original keyword (case-insensitively); and the operation fails exactly when
fewer than 3 valid terms survive the filter. -/
theorem generate_expanded_terms_filtering (keyword : String)
    (rawTerms : List String) :
    (∀ ts, generate_expanded_terms keyword rawTerms = Except.ok ts →
        3 ≤ ts.length ∧ ts.length ≤ 5 ∧
        ∀ t ∈ ts, GENERIC_TERM_DENYLIST.contains (pyLower t) = false ∧
          pyLower t ≠ pyLower keyword) ∧
    ((validTerms keyword rawTerms).length < 3 ↔
        ∃ e, generate_expanded_terms keyword rawTerms = Except.error e) := by
  constructor
  · intro ts hts
    unfold generate_expanded_terms at hts
    by_cases hl : (validTerms keyword rawTerms).length < 3
    · simp [hl] at hts
    · simp [hl] at hts
      subst hts
      refine ⟨?_, ?_, ?_⟩
      · rw [List.length_take]
        omega
      · rw [List.length_take]
        omega
      · intro t ht
        have hmem : t ∈ validTerms keyword rawTerms := List.take_subset _ _ ht
        unfold validTerms at hmem
        rw [List.mem_filter] at hmem
        have h2 := hmem.2
        simp only [Bool.and_eq_true, Bool.not_eq_true', decide_eq_true_eq] at h2
        exact ⟨h2.1, h2.2⟩
  · constructor
    · intro hl
      refine ⟨"Only " ++ toString (validTerms keyword rawTerms).length ++
        " valid terms after filtering", ?_⟩
      simp [generate_expanded_terms, hl]
    · rintro ⟨e, he⟩
      by_cases hl : (validTerms keyword rawTerms).length < 3
      · exact hl
      · simp [generate_expanded_terms, hl] at he

/-- C4 witness: §8's concrete case — raw output
`["term1", "technology", "system", "term2", "innovation"]` leaves only two
valid terms after filtering, which is below the minimum of 3, so the
operation fails. -/
theorem generate_expanded_terms_filtering_witness :
    (validTerms "plant cell culture"
        ["term1", "technology", "system", "term2", "innovation"]).length < 3 ∧
    ∃ e, generate_expanded_terms "plant cell culture"
        ["term1", "technology", "system", "term2", "innovation"] =
          Except.error e :=
  ⟨by decide,
   (generate_expanded_terms_filtering "plant cell culture"
      ["term1", "technology", "system", "term2", "innovation"]).2.mp (by decide)⟩

/-- C1: on a cache miss, whenever fewer than 3 of the 5 collector results are
non-null after the (conditional) query-expansion step, `classify` fails with
the insufficient-data error carrying the current error list, and
`DeepSeekAnalyzer.analyze` is never invoked (the second component of the model
is the was-analyze-invoked flag). -/
theorem classify_quorum_failure (keyword : String) (env : ClassifyEnv)
    (hmiss : check_cache keyword env.now env.db env.rowGetWorks = none)
    (hcount : countSuccess (expansionPhase env).1 < MINIMUM_SOURCES_REQUIRED) :
    classify keyword env =
      (Except.error (insufficientDataMsg (countSuccess (expansionPhase env).1)
          (expansionPhase env).2.1),
       false) := by
  unfold classify
  rw [hmiss]
  simp [hcount]

/-- A concrete `classify` environment with an empty cache and all five initial
collector calls failing; no expansion is attempted (no social data), so zero
sources survive. -/
def envAllFail : ClassifyEnv :=
  { db := []
    now := 0
    ttl := 24
    rowGetWorks := false
    initialOutcomes :=
      [Except.error "e1", Except.error "e2", Except.error "e3",
       Except.error "e4", Except.error "e5"]
    initialTimedOut := false
    termGen := Except.error "no terms"
    rerunOutcomes := []
    rerunTimedOut := false
    analyzeResult := Except.error "not reached" }

/-- C1 witness: in `envAllFail` (cache empty, all five collectors failed),
`classify` returns the insufficient-data error and the analyzer flag stays
`false`. -/
theorem classify_quorum_failure_witness :
    classify "graphene" envAllFail =
      (Except.error (insufficientDataMsg
          (countSuccess (expansionPhase envAllFail).1)
          (expansionPhase envAllFail).2.1),
       false) :=
  classify_quorum_failure "graphene" envAllFail rfl (by decide)

lemma check_cache_some_shape {keyword : String} {now : Nat} {db : List Row}
    {w : Bool} {resp : Response}
    (h : check_cache keyword now db w = some resp) :
    ∃ row, resp = cachedResponseOfRow keyword row := by
  unfold check_cache at h
  cases hl : lookupRow keyword now db with
  | none => rw [hl] at h; simp at h
  | some row =>
    rw [hl] at h
    cases w with
    | false => simp at h
    | true =>
      simp at h
      exact ⟨row, h.symm⟩

/-- C3: every successful response `classify` produces — assembled fresh after
a full run, or reconstructed from a cache row — satisfies
`collectors_succeeded = count(non-null collector_data values)` and
`partial_data = (collectors_succeeded < 5)`. -/
theorem classify_counts_invariant (keyword : String) (env : ClassifyEnv)
    (r : Response) (b : Bool)
    (h : classify keyword env = (Except.ok r, b)) :
    r.collectorsSucceeded = countSuccess r.collectorData ∧
    r.partialData = decide (r.collectorsSucceeded < 5) := by
  unfold classify at h
  cases hc : check_cache keyword env.now env.db env.rowGetWorks with
  | some cached =>
    rw [hc] at h
    simp only [Prod.mk.injEq, Except.ok.injEq] at h
    obtain ⟨rfl, -⟩ := h
    obtain ⟨row, hrow⟩ := check_cache_some_shape hc
    subst hrow
    exact ⟨rfl, rfl⟩
  | none =>
    rw [hc] at h
    by_cases hq : countSuccess (expansionPhase env).1 < MINIMUM_SOURCES_REQUIRED
    · simp [hq] at h
    · simp only [hq, if_false] at h
      cases ha : env.analyzeResult with
      | error e => rw [ha] at h; simp at h
      | ok analysis =>
        rw [ha] at h
        simp only [Prod.mk.injEq, Except.ok.injEq] at h
        obtain ⟨rfl, -⟩ := h
        exact ⟨rfl, rfl⟩

/-- C3 witness: the fresh run in `envFresh` succeeds with 3 of 5 sources, and
the assembled response has `collectors_succeeded = 3` non-null entries and
`partial_data = true`. -/
theorem classify_counts_invariant_witness :
    classify "quantum computing" envFresh = (Except.ok respFresh, true) ∧
    (respFresh.collectorsSucceeded = countSuccess respFresh.collectorData ∧
     respFresh.partialData = decide (respFresh.collectorsSucceeded < 5)) :=
  ⟨rfl, classify_counts_invariant "quantum computing" envFresh respFresh true rfl⟩

/-- C10: every cache-hit response `classify` returns has an empty `errors`
list — the `analyses` table has no errors column (`Row` records every column
of the schema), `_check_cache` assembles the cached response with an empty
collector-error list and an analysis dict without an `errors` key, so the
error list accumulated during the originally persisted run never
resurfaces. -/
theorem classify_cache_hit_errors_empty (keyword : String) (env : ClassifyEnv)
    (r : Response) (b : Bool)
    (h : classify keyword env = (Except.ok r, b)) (hch : r.cacheHit = true) :
    r.errors = [] := by
  unfold classify at h
  cases hc : check_cache keyword env.now env.db env.rowGetWorks with
  | some cached =>
    rw [hc] at h
    simp only [Prod.mk.injEq, Except.ok.injEq] at h
    obtain ⟨rfl, -⟩ := h
    obtain ⟨row, hrow⟩ := check_cache_some_shape hc
    subst hrow
    rfl
  | none =>
    rw [hc] at h
    by_cases hq : countSuccess (expansionPhase env).1 < MINIMUM_SOURCES_REQUIRED
    · simp [hq] at h
    · simp only [hq, if_false] at h
      cases ha : env.analyzeResult with
      | error e => rw [ha] at h; simp at h
      | ok analysis =>
        rw [ha] at h
        simp only [Prod.mk.injEq, Except.ok.injEq] at h
        obtain ⟨rfl, -⟩ := h
        simp [assembleResponse] at hch

/-- C10 witness: the cache hit in `envCacheHit` returns `respCached`, whose
`cache_hit` is `true` and whose error list is empty. -/
theorem classify_cache_hit_errors_empty_witness :
    classify "blockchain" envCacheHit = (Except.ok respCached, false) ∧
    respCached.cacheHit = true ∧ respCached.errors = [] :=
  ⟨rfl, rfl,
   classify_cache_hit_errors_empty "blockchain" envCacheHit respCached false rfl rfl⟩

/-- C9: the cache round-trip fails in production.  After persisting a result
for "quantum computing" at time 5 (so `expires_at = 29`), a lookup at time 10
finds the row (first conjunct) but `_check_cache` still returns a miss
(second conjunct), because the production row object `aiosqlite.Row` has no
`.get` method: line 161's `row.get("query_expansion_applied", 0)` raises
`AttributeError`, which only the outer `except Exception` catches, turning
every hit into a miss.  The third conjunct shows the intended behaviour is
otherwise in place: with dict-like rows (as the unit tests supply) the lookup
yields identical phase/confidence/reasoning/per-source data with
`cache_hit=true`.  The fourth conjunct: after expiry the lookup is a miss,
identical to the keyword never having been cached. -/
theorem cache_roundtrip_production_miss :
    ((lookupRow "quantum computing" 10 dbAfterPersist).map Row.phase
        = some "peak") ∧
    check_cache "quantum computing" 10 dbAfterPersist false = none ∧
    ((check_cache "quantum computing" 10 dbAfterPersist true).map
        (fun r => (r.cacheHit, r.phase, r.confidence, r.reasoning,
                   r.collectorData))
      = some (true, "peak", 0.82, "cached analysis", resultsPersisted)) ∧
    check_cache "quantum computing" 40 dbAfterPersist false
      = check_cache "quantum computing" 40 [] false :=
  ⟨rfl, rfl, rfl, rfl⟩

end HypeCycle
